import Mathlib

/-!
Shallow embedding of `src/diesel/src/query_builder/select_statement/mod.rs`.

The Rust code defines `SelectStatement<From, Select, Distinct, Where, Order,
Limit, Offset, GroupBy>`, a composite with one concretely populated value per
clause slot, together with two rendering passes:

* `to_sql` (lines 128-140 with a table source, 166-176 for the `()` source):
  pushes the literal `"SELECT "`, then renders `distinct`, `select`,
  pushes `" FROM "` (with-source version only), then renders
  `from.from_clause()`, `where_clause`, `group_by`, `order`, `limit`,
  `offset`, every fallible call wrapped in `try!` (early return of the error).
* `walk_ast` (lines 142-152 and 178-187): visits `distinct`, `select`,
  `from.from_clause()` (with-source version only), `where_clause`,
  `group_by`, `order`, `limit`, `offset` on a mutable pass context, each call
  followed by `?` (early return of the error).  It pushes no literal
  fragments of its own.

Each clause slot is an external type known only through its `QueryFragment`
contract, so a slot is modelled by the observable behaviour of one render
call: the list of SQL fragments it appends, the parameters it binds during
the structured walk, and whether it returns `Ok(())` or `Err(e)`.  Because
both passes write through `&mut` references, a failing render leaves the
fragments appended before the failure in the buffer; the model therefore
threads the buffer state explicitly and keeps it on error.
-/

/-- Rendering errors (`diesel::result::Error` values); the embedding only
needs them to be comparable values that propagate unchanged. -/
abbrev Err := String

/-- Bound parameter values collected by the structured walk. -/
abbrev Param := String

/-- Observable behaviour of one clause slot under one backend: what one call
to its `to_sql` appends and returns, and what one call to its `walk_ast`
appends, binds and returns. -/
structure Slot where
  sqlFrags : List String
  sqlErr : Option Err
  walkFrags : List String
  walkBinds : List Param
  walkErr : Option Err
deriving DecidableEq, Repr

/-- Modelled from the spec: the pass context of the structured walk
(`AstPass<DB>`, not under `src/`) accumulates SQL text fragments and
out-of-band bound parameter values. -/
structure AstPass where
  sql : List String
  binds : List Param
deriving DecidableEq, Repr

/-- State of a text render in flight: the fragments pushed so far into the
backend's query builder, and `some e` once a `try!` has returned early. -/
abbrev SqlState := List String × Option Err

/-- State of a structured walk in flight. -/
abbrev WalkState := AstPass × Option Err

/-- `out.push_sql(s)`: appends `s` unless the render already returned. -/
def pushSql : SqlState → String → SqlState
  | (b, none), s => (b ++ [s], none)
  | (b, some e), _ => (b, some e)

/-- `try!(slot.to_sql(out))`: the slot appends its fragments and the render
either continues or returns the slot's error; once an earlier `try!` has
returned, nothing more runs. -/
def runSlot : SqlState → List String → Option Err → SqlState
  | (b, none), frags, e => (b ++ frags, e)
  | (b, some e), _, _ => (b, some e)

/-- `slot.walk_ast(pass)?`: the slot appends fragments and binds into the
pass context and the walk either continues or returns the slot's error. -/
def walkSlot : WalkState → List String → List Param → Option Err → WalkState
  | (p, none), frags, binds, e => (⟨p.sql ++ frags, p.binds ++ binds⟩, e)
  | (p, some e), _, _, _ => (p, some e)

/-- `SelectStatement<F, S, D, W, O, L, Of, G>` (mod.rs lines 32-50), with a
table source: one concretely populated slot per clause.  `from_` stands for
the `from` field (a Lean keyword); its `Slot` is the behaviour of
`from.from_clause()` as a `QueryFragment`. -/
structure SelectStatement where
  select : Slot
  from_ : Slot
  distinct : Slot
  where_clause : Slot
  order : Slot
  limit : Slot
  offset : Slot
  group_by : Slot
deriving DecidableEq, Repr

/-- `SelectStatement::new` (mod.rs lines 54-74), same argument order. -/
def SelectStatement.new (select : Slot) (from_ : Slot) (distinct : Slot)
    (where_clause : Slot) (order : Slot) (limit : Slot) (offset : Slot)
    (group_by : Slot) : SelectStatement :=
  { select := select, from_ := from_, distinct := distinct,
    where_clause := where_clause, order := order, limit := limit,
    offset := offset, group_by := group_by }

/-- `SelectStatement::to_sql` for the with-source specialization
(mod.rs lines 128-140), line by line. -/
def SelectStatement.to_sql (s : SelectStatement) (st : SqlState) : SqlState :=
  let st := pushSql st "SELECT "
  let st := runSlot st s.distinct.sqlFrags s.distinct.sqlErr
  let st := runSlot st s.select.sqlFrags s.select.sqlErr
  let st := pushSql st " FROM "
  let st := runSlot st s.from_.sqlFrags s.from_.sqlErr
  let st := runSlot st s.where_clause.sqlFrags s.where_clause.sqlErr
  let st := runSlot st s.group_by.sqlFrags s.group_by.sqlErr
  let st := runSlot st s.order.sqlFrags s.order.sqlErr
  let st := runSlot st s.limit.sqlFrags s.limit.sqlErr
  let st := runSlot st s.offset.sqlFrags s.offset.sqlErr
  st

/-- `SelectStatement::walk_ast` for the with-source specialization
(mod.rs lines 142-152), line by line; note that, unlike `to_sql`, it pushes
no `"SELECT "` or `" FROM "` literal of its own. -/
def SelectStatement.walk_ast (s : SelectStatement) (st : WalkState) : WalkState :=
  let st := walkSlot st s.distinct.walkFrags s.distinct.walkBinds s.distinct.walkErr
  let st := walkSlot st s.select.walkFrags s.select.walkBinds s.select.walkErr
  let st := walkSlot st s.from_.walkFrags s.from_.walkBinds s.from_.walkErr
  let st := walkSlot st s.where_clause.walkFrags s.where_clause.walkBinds s.where_clause.walkErr
  let st := walkSlot st s.group_by.walkFrags s.group_by.walkBinds s.group_by.walkErr
  let st := walkSlot st s.order.walkFrags s.order.walkBinds s.order.walkErr
  let st := walkSlot st s.limit.walkFrags s.limit.walkBinds s.limit.walkErr
  let st := walkSlot st s.offset.walkFrags s.offset.walkBinds s.offset.walkErr
  st

/-- `SelectStatement<(), S, D, W, O, L, Of, G>` (mod.rs lines 155-188): the
table-less specialization, whose `from` slot is the unit marker and renders
nothing. -/
structure SelectStatementNoFrom where
  select : Slot
  distinct : Slot
  where_clause : Slot
  order : Slot
  limit : Slot
  offset : Slot
  group_by : Slot
deriving DecidableEq, Repr

/-- `to_sql` for the `()`-source specialization (mod.rs lines 166-176):
no `" FROM "` push and no from-clause render. -/
def SelectStatementNoFrom.to_sql (s : SelectStatementNoFrom) (st : SqlState) : SqlState :=
  let st := pushSql st "SELECT "
  let st := runSlot st s.distinct.sqlFrags s.distinct.sqlErr
  let st := runSlot st s.select.sqlFrags s.select.sqlErr
  let st := runSlot st s.where_clause.sqlFrags s.where_clause.sqlErr
  let st := runSlot st s.group_by.sqlFrags s.group_by.sqlErr
  let st := runSlot st s.order.sqlFrags s.order.sqlErr
  let st := runSlot st s.limit.sqlFrags s.limit.sqlErr
  let st := runSlot st s.offset.sqlFrags s.offset.sqlErr
  st

/-- `walk_ast` for the `()`-source specialization (mod.rs lines 178-187). -/
def SelectStatementNoFrom.walk_ast (s : SelectStatementNoFrom) (st : WalkState) : WalkState :=
  let st := walkSlot st s.distinct.walkFrags s.distinct.walkBinds s.distinct.walkErr
  let st := walkSlot st s.select.walkFrags s.select.walkBinds s.select.walkErr
  let st := walkSlot st s.where_clause.walkFrags s.where_clause.walkBinds s.where_clause.walkErr
  let st := walkSlot st s.group_by.walkFrags s.group_by.walkBinds s.group_by.walkErr
  let st := walkSlot st s.order.walkFrags s.order.walkBinds s.order.walkErr
  let st := walkSlot st s.limit.walkFrags s.limit.walkBinds s.limit.walkErr
  let st := walkSlot st s.offset.walkFrags s.offset.walkBinds s.offset.walkErr
  st

/-- Modelled from the spec: the no-op sentinel for an absent `DISTINCT`
(`NoDistinctClause`, not under `src/`) — both renderings append nothing,
bind nothing and never fail. -/
def NoDistinctClause : Slot := ⟨[], none, [], [], none⟩

/-- Modelled from the spec: the no-op sentinel for an absent `WHERE`
(`NoWhereClause`, not under `src/`). -/
def NoWhereClause : Slot := ⟨[], none, [], [], none⟩

/-- Modelled from the spec: the no-op sentinel for an absent `ORDER BY`
(`NoOrderClause`, not under `src/`). -/
def NoOrderClause : Slot := ⟨[], none, [], [], none⟩

/-- Modelled from the spec: the no-op sentinel for an absent `LIMIT`
(`NoLimitClause`, not under `src/`). -/
def NoLimitClause : Slot := ⟨[], none, [], [], none⟩

/-- Modelled from the spec: the no-op sentinel for an absent `OFFSET`
(`NoOffsetClause`, not under `src/`). -/
def NoOffsetClause : Slot := ⟨[], none, [], [], none⟩

/-- Modelled from the spec: the no-op sentinel for an absent `GROUP BY`
(`NoGroupByClause`, not under `src/`). -/
def NoGroupByClause : Slot := ⟨[], none, [], [], none⟩

/-- Modelled from the spec: `DefaultSelectClause` (not under `src/`) renders
the default select-list of the source ("all columns"); it appends that text
in both passes, binds nothing, and never fails.  The concrete text depends
on the source, so it is a parameter. -/
def DefaultSelectClause (frags : List String) : Slot :=
  ⟨frags, none, frags, [], none⟩

/-- `SelectStatement::simple` (mod.rs lines 78-89): the table source plus
every slot at its default sentinel.  `defaultSelect` is the source-dependent
text of `DefaultSelectClause`. -/
def SelectStatement.simple (from_ : Slot) (defaultSelect : List String) : SelectStatement :=
  SelectStatement.new (DefaultSelectClause defaultSelect) from_ NoDistinctClause
    NoWhereClause NoOrderClause NoLimitClause NoOffsetClause NoGroupByClause

/-- Declared SQL types (`diesel::types`); `array` is `::types::Array<_>`. -/
inductive SqlType where
  | base : Nat → SqlType
  | array : SqlType → SqlType
deriving DecidableEq, Repr

/-- `impl Query for SelectStatement` (mod.rs lines 92-97):
`type SqlType = S::SelectClauseSqlType`, with no `cfg` gate — the same
associated type whether or not the `postgres` feature is enabled. -/
def querySqlType (_postgresFeature : Bool) (selectClauseSqlType : SqlType) : SqlType :=
  selectClauseSqlType

/-- `impl Expression for SelectStatement` (mod.rs lines 99-113):
`type SqlType = ::types::Array<S::SelectClauseSqlType>` under
`cfg(feature = "postgres")` (lines 99-105), and
`type SqlType = S::SelectClauseSqlType` otherwise (lines 107-113). -/
def expressionSqlType (postgresFeature : Bool) (selectClauseSqlType : SqlType) : SqlType :=
  if postgresFeature then SqlType.array selectClauseSqlType else selectClauseSqlType

/-- Identifier of one slot's static type (two slots have the same `Nat`
exactly when they are instantiated at the same Rust type). -/
abbrev TyId := Nat

/-- The static shape of a `SelectStatement` instantiation: which concrete
type each of the eight slot parameters is bound to. -/
structure StatementShape where
  fromTy : TyId
  selectTy : TyId
  distinctTy : TyId
  whereTy : TyId
  orderTy : TyId
  limitTy : TyId
  offsetTy : TyId
  groupByTy : TyId
deriving DecidableEq, Repr

/-- A composite together with the static shape it was instantiated at. -/
structure TypedSelectStatement where
  shape : StatementShape
  value : SelectStatement
deriving DecidableEq, Repr

/-- Modelled from the spec: `impl_query_id!(SelectStatement<F, S, D, W, O,
L, Of, G>)` (mod.rs line 190; the macro itself is not under `src/`) derives
the statement's fingerprint from the combination of its slot types only,
never from the runtime values inside the slots. -/
def queryId (s : TypedSelectStatement) : StatementShape :=
  s.shape

/-- A statement whose slots all render empty output, identically in both
passes, and never fail (every slot behaves like a no-op sentinel). -/
def cexC1 : SelectStatement :=
  { select := ⟨[], none, [], [], none⟩, from_ := ⟨[], none, [], [], none⟩,
    distinct := ⟨[], none, [], [], none⟩, where_clause := ⟨[], none, [], [], none⟩,
    order := ⟨[], none, [], [], none⟩, limit := ⟨[], none, [], [], none⟩,
    offset := ⟨[], none, [], [], none⟩, group_by := ⟨[], none, [], [], none⟩ }

/-- A concrete all-`Ok` statement with distinctive fragments per slot and
one bound parameter in the `WHERE` slot. -/
def wStmt : SelectStatement :=
  { select := ⟨["*"], none, ["*"], [], none⟩,
    from_ := ⟨["orders"], none, ["orders"], [], none⟩,
    distinct := ⟨["DISTINCT "], none, ["DISTINCT "], [], none⟩,
    where_clause := ⟨[" WHERE status = $1"], none, [" WHERE status = $1"], ["open"], none⟩,
    order := ⟨[" ORDER BY id"], none, [" ORDER BY id"], [], none⟩,
    limit := ⟨[" LIMIT 10"], none, [" LIMIT 10"], [], none⟩,
    offset := ⟨[], none, [], [], none⟩,
    group_by := ⟨[], none, [], [], none⟩ }

/-- A second concrete all-`Ok` statement with different slot values. -/
def wStmt2 : SelectStatement :=
  { select := ⟨["id"], none, ["id"], [], none⟩,
    from_ := ⟨["users"], none, ["users"], [], none⟩,
    distinct := ⟨[], none, [], [], none⟩,
    where_clause := ⟨[" WHERE status = $1"], none, [" WHERE status = $1"], ["closed"], none⟩,
    order := ⟨[], none, [], [], none⟩, limit := ⟨[], none, [], [], none⟩,
    offset := ⟨[], none, [], [], none⟩, group_by := ⟨[], none, [], [], none⟩ }

/-- A statement whose `distinct` slot fails its text render immediately and
whose `select` slot fails the structured walk after the `distinct` slot has
already contributed a fragment and a bound parameter to the pass. -/
def failStmt : SelectStatement :=
  { select := ⟨["*"], none, ["*"], [], some "boom"⟩,
    from_ := ⟨["orders"], none, ["orders"], [], none⟩,
    distinct := ⟨["DISTINCT "], some "boom", ["DISTINCT "], ["p0"], none⟩,
    where_clause := ⟨[" WHERE status = $1"], none, [" WHERE status = $1"], ["open"], none⟩,
    order := ⟨[], none, [], [], none⟩, limit := ⟨[], none, [], [], none⟩,
    offset := ⟨[], none, [], [], none⟩, group_by := ⟨[], none, [], [], none⟩ }

/-- A concrete all-`Ok` table-less statement. -/
def wNoFrom : SelectStatementNoFrom :=
  { select := ⟨["1 + 1"], none, ["1 + 1"], [], none⟩,
    distinct := ⟨[], none, [], [], none⟩,
    where_clause := ⟨[], none, [], [], none⟩,
    order := ⟨[], none, [], [], none⟩, limit := ⟨[" LIMIT 1"], none, [" LIMIT 1"], [], none⟩,
    offset := ⟨[], none, [], [], none⟩, group_by := ⟨[], none, [], [], none⟩ }

/-- `wStmt` at a concrete instantiation shape. -/
def wTypedA : TypedSelectStatement := ⟨⟨0, 1, 2, 3, 4, 5, 6, 7⟩, wStmt⟩

/-- `wStmt2` at the same instantiation shape: same slot types, different
slot values. -/
def wTypedB : TypedSelectStatement := ⟨⟨0, 1, 2, 3, 4, 5, 6, 7⟩, wStmt2⟩

/-- `wStmt` at an instantiation shape differing in the limit slot's type. -/
def wTypedC : TypedSelectStatement := ⟨⟨0, 1, 2, 3, 4, 9, 6, 7⟩, wStmt⟩

/-- All eight `try!(... .to_sql(out))` calls of the with-source `to_sql`
return `Ok(())`. -/
abbrev sqlOk (s : SelectStatement) : Prop :=
  s.distinct.sqlErr = none ∧ s.select.sqlErr = none ∧ s.from_.sqlErr = none ∧
    s.where_clause.sqlErr = none ∧ s.group_by.sqlErr = none ∧
    s.order.sqlErr = none ∧ s.limit.sqlErr = none ∧ s.offset.sqlErr = none

/-- All eight `... .walk_ast(pass)?` calls of the with-source `walk_ast`
return `Ok(())`. -/
abbrev walkOk (s : SelectStatement) : Prop :=
  s.distinct.walkErr = none ∧ s.select.walkErr = none ∧ s.from_.walkErr = none ∧
    s.where_clause.walkErr = none ∧ s.group_by.walkErr = none ∧
    s.order.walkErr = none ∧ s.limit.walkErr = none ∧ s.offset.walkErr = none

/-- All seven slot renders of the table-less `to_sql` return `Ok(())`. -/
abbrev sqlOkNoFrom (s : SelectStatementNoFrom) : Prop :=
  s.distinct.sqlErr = none ∧ s.select.sqlErr = none ∧
    s.where_clause.sqlErr = none ∧ s.group_by.sqlErr = none ∧
    s.order.sqlErr = none ∧ s.limit.sqlErr = none ∧ s.offset.sqlErr = none

/-- All seven slot walks of the table-less `walk_ast` return `Ok(())`. -/
abbrev walkOkNoFrom (s : SelectStatementNoFrom) : Prop :=
  s.distinct.walkErr = none ∧ s.select.walkErr = none ∧
    s.where_clause.walkErr = none ∧ s.group_by.walkErr = none ∧
    s.order.walkErr = none ∧ s.limit.walkErr = none ∧ s.offset.walkErr = none

/-- On an all-`Ok` statement, `to_sql` produces exactly the literal
`"SELECT "`, the `DISTINCT` fragment, the select-list, the literal
`" FROM "`, the source fragment, then `WHERE`, `GROUP BY`, `ORDER BY`,
`LIMIT`, `OFFSET`, appended after the buffer's prior content. -/
theorem to_sql_ok (s : SelectStatement) (b : List String) (h : sqlOk s) :
    s.to_sql (b, none)
      = (b ++ ["SELECT "] ++ s.distinct.sqlFrags ++ s.select.sqlFrags
          ++ [" FROM "] ++ s.from_.sqlFrags ++ s.where_clause.sqlFrags
          ++ s.group_by.sqlFrags ++ s.order.sqlFrags ++ s.limit.sqlFrags
          ++ s.offset.sqlFrags, none) := by
  obtain ⟨h1, h2, h3, h4, h5, h6, h7, h8⟩ := h
  simp [SelectStatement.to_sql, pushSql, runSlot, h1, h2, h3, h4, h5, h6, h7, h8]

/-- On an all-`Ok` statement, `walk_ast` appends exactly the slots' walk
fragments and binds in slot order, with no literal of its own. -/
theorem walk_ast_ok (s : SelectStatement) (p : AstPass) (h : walkOk s) :
    s.walk_ast (p, none)
      = (⟨p.sql ++ s.distinct.walkFrags ++ s.select.walkFrags
            ++ s.from_.walkFrags ++ s.where_clause.walkFrags
            ++ s.group_by.walkFrags ++ s.order.walkFrags
            ++ s.limit.walkFrags ++ s.offset.walkFrags,
          p.binds ++ s.distinct.walkBinds ++ s.select.walkBinds
            ++ s.from_.walkBinds ++ s.where_clause.walkBinds
            ++ s.group_by.walkBinds ++ s.order.walkBinds
            ++ s.limit.walkBinds ++ s.offset.walkBinds⟩, none) := by
  obtain ⟨h1, h2, h3, h4, h5, h6, h7, h8⟩ := h
  simp [SelectStatement.walk_ast, walkSlot, h1, h2, h3, h4, h5, h6, h7, h8]

/-- On an all-`Ok` table-less statement, `to_sql` produces the literal
`"SELECT "` and the slot fragments in the same order, with no `" FROM "`
literal and no source fragment. -/
theorem to_sql_noFrom_ok (s : SelectStatementNoFrom) (b : List String)
    (h : sqlOkNoFrom s) :
    s.to_sql (b, none)
      = (b ++ ["SELECT "] ++ s.distinct.sqlFrags ++ s.select.sqlFrags
          ++ s.where_clause.sqlFrags ++ s.group_by.sqlFrags
          ++ s.order.sqlFrags ++ s.limit.sqlFrags ++ s.offset.sqlFrags,
        none) := by
  obtain ⟨h1, h2, h3, h4, h5, h6, h7⟩ := h
  simp [SelectStatementNoFrom.to_sql, pushSql, runSlot, h1, h2, h3, h4, h5, h6, h7]

/-- On an all-`Ok` table-less statement, `walk_ast` appends the slots' walk
fragments and binds in slot order, without the source. -/
theorem walk_ast_noFrom_ok (s : SelectStatementNoFrom) (p : AstPass)
    (h : walkOkNoFrom s) :
    s.walk_ast (p, none)
      = (⟨p.sql ++ s.distinct.walkFrags ++ s.select.walkFrags
            ++ s.where_clause.walkFrags ++ s.group_by.walkFrags
            ++ s.order.walkFrags ++ s.limit.walkFrags ++ s.offset.walkFrags,
          p.binds ++ s.distinct.walkBinds ++ s.select.walkBinds
            ++ s.where_clause.walkBinds ++ s.group_by.walkBinds
            ++ s.order.walkBinds ++ s.limit.walkBinds ++ s.offset.walkBinds⟩,
        none) := by
  obtain ⟨h1, h2, h3, h4, h5, h6, h7⟩ := h
  simp [SelectStatementNoFrom.walk_ast, walkSlot, h1, h2, h3, h4, h5, h6, h7]

/-- `push_sql` after an early return does nothing; otherwise it only
appends, so buffer content already present is preserved verbatim. -/
theorem pushSql_frame (b c : List String) (o : Option Err) (s : String) :
    pushSql (b ++ c, o) s = (b ++ (pushSql (c, o) s).1, (pushSql (c, o) s).2) := by
  rcases o with _ | e <;> simp [pushSql]

/-- A slot render only appends to the buffer. -/
theorem runSlot_frame (b c : List String) (o : Option Err) (f : List String)
    (e : Option Err) :
    runSlot (b ++ c, o) f e = (b ++ (runSlot (c, o) f e).1, (runSlot (c, o) f e).2) := by
  rcases o with _ | e1 <;> simp [runSlot]

/-- A slot walk only appends to the pass context. -/
theorem walkSlot_frame (q p : AstPass) (o : Option Err) (f : List String)
    (bs : List Param) (e : Option Err) :
    walkSlot (⟨q.sql ++ p.sql, q.binds ++ p.binds⟩, o) f bs e
      = (⟨q.sql ++ (walkSlot (p, o) f bs e).1.sql,
          q.binds ++ (walkSlot (p, o) f bs e).1.binds⟩,
         (walkSlot (p, o) f bs e).2) := by
  rcases o with _ | e1 <;> simp [walkSlot]

/-- `to_sql` only appends: prior buffer content is preserved, and what is
appended (and the returned result) depends only on the statement and the
incoming error state, not on the prior content. -/
theorem to_sql_frame (s : SelectStatement) (b c : List String) (o : Option Err) :
    s.to_sql (b ++ c, o) = (b ++ (s.to_sql (c, o)).1, (s.to_sql (c, o)).2) := by
  simp only [SelectStatement.to_sql]
  rw [pushSql_frame, runSlot_frame, runSlot_frame, pushSql_frame, runSlot_frame,
    runSlot_frame, runSlot_frame, runSlot_frame, runSlot_frame, runSlot_frame]

/-- The table-less `to_sql` only appends. -/
theorem to_sql_noFrom_frame (s : SelectStatementNoFrom) (b c : List String)
    (o : Option Err) :
    s.to_sql (b ++ c, o) = (b ++ (s.to_sql (c, o)).1, (s.to_sql (c, o)).2) := by
  simp only [SelectStatementNoFrom.to_sql]
  rw [pushSql_frame, runSlot_frame, runSlot_frame, runSlot_frame, runSlot_frame,
    runSlot_frame, runSlot_frame, runSlot_frame]

/-- `walk_ast` only appends to the pass context: prior fragments and binds
are preserved, and what is appended depends only on the statement and the
incoming error state. -/
theorem walk_ast_frame (s : SelectStatement) (q p : AstPass) (o : Option Err) :
    s.walk_ast (⟨q.sql ++ p.sql, q.binds ++ p.binds⟩, o)
      = (⟨q.sql ++ (s.walk_ast (p, o)).1.sql,
          q.binds ++ (s.walk_ast (p, o)).1.binds⟩,
         (s.walk_ast (p, o)).2) := by
  simp only [SelectStatement.walk_ast]
  rw [walkSlot_frame, walkSlot_frame, walkSlot_frame, walkSlot_frame,
    walkSlot_frame, walkSlot_frame, walkSlot_frame, walkSlot_frame]

/-- The table-less `walk_ast` only appends to the pass context. -/
theorem walk_ast_noFrom_frame (s : SelectStatementNoFrom) (q p : AstPass)
    (o : Option Err) :
    s.walk_ast (⟨q.sql ++ p.sql, q.binds ++ p.binds⟩, o)
      = (⟨q.sql ++ (s.walk_ast (p, o)).1.sql,
          q.binds ++ (s.walk_ast (p, o)).1.binds⟩,
         (s.walk_ast (p, o)).2) := by
  simp only [SelectStatementNoFrom.walk_ast]
  rw [walkSlot_frame, walkSlot_frame, walkSlot_frame, walkSlot_frame,
    walkSlot_frame, walkSlot_frame, walkSlot_frame]

/-- Whatever the slots do — succeed or fail — a text render started in the
clean state first pushes the literal `"SELECT "`, which then stays in the
buffer. -/
theorem to_sql_starts_with_select (s : SelectStatement) :
    ∃ t, (s.to_sql ([], none)).1 = "SELECT " :: t := by
  rcases h1 : s.distinct.sqlErr with _ | e1 <;>
  rcases h2 : s.select.sqlErr with _ | e2 <;>
  rcases h3 : s.from_.sqlErr with _ | e3 <;>
  rcases h4 : s.where_clause.sqlErr with _ | e4 <;>
  rcases h5 : s.group_by.sqlErr with _ | e5 <;>
  rcases h6 : s.order.sqlErr with _ | e6 <;>
  rcases h7 : s.limit.sqlErr with _ | e7 <;>
  rcases h8 : s.offset.sqlErr with _ | e8 <;>
  simp [SelectStatement.to_sql, pushSql, runSlot, h1, h2, h3, h4, h5, h6, h7, h8]

/-- C7: the declared SQL result type of the composite as an expression is a
pure function of the select-list's declared type and the backend family: the
array-wrapping family (the `postgres` feature) yields `Array<S::SqlType>`,
every other build yields `S::SqlType` itself. -/
theorem expression_sql_type_backend_conditional (t : SqlType) :
    expressionSqlType true t = SqlType.array t ∧ expressionSqlType false t = t :=
  ⟨rfl, rfl⟩

/-- C10: the array wrapping applies only to the `Expression` association;
the `Query` association declares the select-list's scalar type identically
for every backend family, and the wrapped type is genuinely different from
the scalar one. -/
theorem query_sql_type_never_wrapped (pg : Bool) (t : SqlType) :
    querySqlType pg t = t ∧ querySqlType true t = querySqlType false t
      ∧ expressionSqlType true t = SqlType.array t ∧ SqlType.array t ≠ t := by
  refine ⟨rfl, rfl, rfl, ?_⟩
  induction t with
  | base n => exact fun h => SqlType.noConfusion h
  | array t ih => exact fun h => ih (by injection h)

/-- C8: the fingerprint of a composite is determined by, and only by, the
combination of its slot types: shape-equal composites fingerprint equally
(whatever slot values they hold), shape-different composites fingerprint
differently. -/
theorem query_id_depends_only_on_shape (a b : TypedSelectStatement) :
    (a.shape = b.shape → queryId a = queryId b)
      ∧ (a.shape ≠ b.shape → queryId a ≠ queryId b)
      ∧ ∀ (sh : StatementShape) (v w : SelectStatement),
          queryId ⟨sh, v⟩ = queryId ⟨sh, w⟩ :=
  ⟨fun h => h, fun h => h, fun _ _ _ => rfl⟩

/-- Witness for C8 at concrete shapes: same shape with different slot values
gives equal fingerprints; a shape differing in one slot type gives different
fingerprints. -/
theorem query_id_depends_only_on_shape_witness :
    (wTypedA.shape = wTypedB.shape ∧ queryId wTypedA = queryId wTypedB)
      ∧ (wTypedA.shape ≠ wTypedC.shape ∧ queryId wTypedA ≠ queryId wTypedC) :=
  ⟨⟨by decide, (query_id_depends_only_on_shape wTypedA wTypedB).1 (by decide)⟩,
   ⟨by decide, (query_id_depends_only_on_shape wTypedA wTypedC).2.1 (by decide)⟩⟩

/-- C2: on any composite whose slot renders all succeed, `to_sql` emits the
literal `SELECT` keyword and then the clause fragments in exactly the fixed
order DISTINCT, select-list, FROM, WHERE, GROUP BY, ORDER BY, LIMIT,
OFFSET, for every combination of slot behaviours (hence independently of
the backend, which only influences the individual fragments). -/
theorem to_sql_fixed_clause_order (s : SelectStatement) (b : List String)
    (h : sqlOk s) :
    s.to_sql (b, none)
      = (b ++ ["SELECT "] ++ s.distinct.sqlFrags ++ s.select.sqlFrags
          ++ [" FROM "] ++ s.from_.sqlFrags ++ s.where_clause.sqlFrags
          ++ s.group_by.sqlFrags ++ s.order.sqlFrags ++ s.limit.sqlFrags
          ++ s.offset.sqlFrags, none) :=
  to_sql_ok s b h

/-- Witness for C2 on a concrete composite with a distinct fragment in
every populated slot. -/
theorem to_sql_fixed_clause_order_witness :
    sqlOk wStmt
      ∧ wStmt.to_sql ([], none)
        = ([] ++ ["SELECT "] ++ wStmt.distinct.sqlFrags ++ wStmt.select.sqlFrags
            ++ [" FROM "] ++ wStmt.from_.sqlFrags ++ wStmt.where_clause.sqlFrags
            ++ wStmt.group_by.sqlFrags ++ wStmt.order.sqlFrags
            ++ wStmt.limit.sqlFrags ++ wStmt.offset.sqlFrags, none) :=
  ⟨by decide, to_sql_fixed_clause_order wStmt [] (by decide)⟩

/-- Counterexample to C1: a composite whose every slot renders identically
(and successfully) in both passes, yet the SQL text of `to_sql` and the SQL
text accumulated by `walk_ast` differ — `to_sql` emits the literal
`"SELECT "` and `" FROM "` fragments that `walk_ast` never pushes. -/
theorem to_sql_walk_ast_not_identical_text :
    (cexC1.distinct.sqlFrags = cexC1.distinct.walkFrags
        ∧ cexC1.select.sqlFrags = cexC1.select.walkFrags
        ∧ cexC1.from_.sqlFrags = cexC1.from_.walkFrags
        ∧ cexC1.where_clause.sqlFrags = cexC1.where_clause.walkFrags
        ∧ cexC1.group_by.sqlFrags = cexC1.group_by.walkFrags
        ∧ cexC1.order.sqlFrags = cexC1.order.walkFrags
        ∧ cexC1.limit.sqlFrags = cexC1.limit.walkFrags
        ∧ cexC1.offset.sqlFrags = cexC1.offset.walkFrags)
      ∧ (cexC1.to_sql ([], none)).2 = none
      ∧ (cexC1.walk_ast (⟨[], []⟩, none)).2 = none
      ∧ String.join (cexC1.to_sql ([], none)).1
          ≠ String.join (cexC1.walk_ast (⟨[], []⟩, none)).1.sql := by
  decide

/-- C1 as amended: both renderings traverse the clause slots in the same
relative order (distinct, select-list, from, where, group-by, order, limit,
offset), but the texts are not identical — `to_sql` additionally emits the
literal `"SELECT "` prefix and `" FROM "` separator, which `walk_ast`
omits. -/
theorem to_sql_walk_ast_same_clause_order (s : SelectStatement)
    (b : List String) (p : AstPass) (h1 : sqlOk s) (h2 : walkOk s) :
    (s.to_sql (b, none)).1
        = b ++ ["SELECT "] ++ s.distinct.sqlFrags ++ s.select.sqlFrags
          ++ [" FROM "] ++ s.from_.sqlFrags ++ s.where_clause.sqlFrags
          ++ s.group_by.sqlFrags ++ s.order.sqlFrags ++ s.limit.sqlFrags
          ++ s.offset.sqlFrags
      ∧ (s.walk_ast (p, none)).1.sql
        = p.sql ++ s.distinct.walkFrags ++ s.select.walkFrags
          ++ s.from_.walkFrags ++ s.where_clause.walkFrags
          ++ s.group_by.walkFrags ++ s.order.walkFrags ++ s.limit.walkFrags
          ++ s.offset.walkFrags := by
  rw [to_sql_ok s b h1, walk_ast_ok s p h2]
  exact ⟨rfl, rfl⟩

/-- Witness for the amended C1 on a concrete all-`Ok` composite. -/
theorem to_sql_walk_ast_same_clause_order_witness :
    sqlOk wStmt ∧ walkOk wStmt
      ∧ ((wStmt.to_sql ([], none)).1
          = [] ++ ["SELECT "] ++ wStmt.distinct.sqlFrags ++ wStmt.select.sqlFrags
            ++ [" FROM "] ++ wStmt.from_.sqlFrags ++ wStmt.where_clause.sqlFrags
            ++ wStmt.group_by.sqlFrags ++ wStmt.order.sqlFrags
            ++ wStmt.limit.sqlFrags ++ wStmt.offset.sqlFrags
        ∧ (wStmt.walk_ast (⟨[], []⟩, none)).1.sql
          = AstPass.sql ⟨[], []⟩ ++ wStmt.distinct.walkFrags ++ wStmt.select.walkFrags
            ++ wStmt.from_.walkFrags ++ wStmt.where_clause.walkFrags
            ++ wStmt.group_by.walkFrags ++ wStmt.order.walkFrags
            ++ wStmt.limit.walkFrags ++ wStmt.offset.walkFrags) :=
  ⟨by decide, by decide,
   to_sql_walk_ast_same_clause_order wStmt [] ⟨[], []⟩ (by decide) (by decide)⟩

/-- C5: a table-less composite renders the `SELECT` keyword and then every
present clause in the same fixed order as the with-source specialization,
with no `" FROM "` literal and no from-clause fragment: every fragment of
the output is prior buffer content, the `SELECT` keyword, or a fragment of
one of the seven non-from slots. -/
theorem tableless_renders_without_from (s : SelectStatementNoFrom)
    (b : List String) (h : sqlOkNoFrom s) :
    s.to_sql (b, none)
        = (b ++ ["SELECT "] ++ s.distinct.sqlFrags ++ s.select.sqlFrags
            ++ s.where_clause.sqlFrags ++ s.group_by.sqlFrags
            ++ s.order.sqlFrags ++ s.limit.sqlFrags ++ s.offset.sqlFrags, none)
      ∧ ∀ f ∈ (s.to_sql (b, none)).1,
          f ∈ b ∨ f = "SELECT " ∨ f ∈ s.distinct.sqlFrags
            ∨ f ∈ s.select.sqlFrags ∨ f ∈ s.where_clause.sqlFrags
            ∨ f ∈ s.group_by.sqlFrags ∨ f ∈ s.order.sqlFrags
            ∨ f ∈ s.limit.sqlFrags ∨ f ∈ s.offset.sqlFrags := by
  refine ⟨to_sql_noFrom_ok s b h, ?_⟩
  intro f hf
  rw [to_sql_noFrom_ok s b h] at hf
  simp only [List.mem_append, List.mem_singleton] at hf
  tauto

/-- Witness for C5 on a concrete table-less composite with a populated
select-list and limit. -/
theorem tableless_renders_without_from_witness :
    sqlOkNoFrom wNoFrom
      ∧ wNoFrom.to_sql ([], none)
        = ([] ++ ["SELECT "] ++ wNoFrom.distinct.sqlFrags ++ wNoFrom.select.sqlFrags
            ++ wNoFrom.where_clause.sqlFrags ++ wNoFrom.group_by.sqlFrags
            ++ wNoFrom.order.sqlFrags ++ wNoFrom.limit.sqlFrags
            ++ wNoFrom.offset.sqlFrags, none) :=
  ⟨by decide, (tableless_renders_without_from wNoFrom [] (by decide)).1⟩

/-- C6: a composite built by `SelectStatement::simple` — the table source
plus every slot at its default sentinel — text-renders to exactly
`SELECT <default-select-list> FROM <source-fragment>` with no trailing
clause text, and its structured walk contributes exactly the select-list
and source fragments with only the source's binds, because every sentinel
appends nothing and never fails. -/
theorem simple_defaults_render_select_from (from_ : Slot) (sel : List String)
    (hf : from_.sqlErr = none) (hw : from_.walkErr = none) :
    (SelectStatement.simple from_ sel).to_sql ([], none)
        = (["SELECT "] ++ sel ++ [" FROM "] ++ from_.sqlFrags, none)
      ∧ (SelectStatement.simple from_ sel).walk_ast (⟨[], []⟩, none)
        = (⟨sel ++ from_.walkFrags, from_.walkBinds⟩, none) := by
  refine ⟨?_, ?_⟩ <;>
  simp [SelectStatement.simple, SelectStatement.new, SelectStatement.to_sql,
    SelectStatement.walk_ast, pushSql, runSlot, walkSlot, NoDistinctClause,
    NoWhereClause, NoOrderClause, NoLimitClause, NoOffsetClause,
    NoGroupByClause, DefaultSelectClause, hf, hw]

/-- Witness for C6 with the `orders` source and its default select-list. -/
theorem simple_defaults_render_select_from_witness :
    (⟨["orders"], none, ["orders"], [], none⟩ : Slot).sqlErr = none
      ∧ (⟨["orders"], none, ["orders"], [], none⟩ : Slot).walkErr = none
      ∧ ((SelectStatement.simple ⟨["orders"], none, ["orders"], [], none⟩
              ["orders.*"]).to_sql ([], none)
          = (["SELECT "] ++ ["orders.*"] ++ [" FROM "]
              ++ (⟨["orders"], none, ["orders"], [], none⟩ : Slot).sqlFrags, none)
        ∧ (SelectStatement.simple ⟨["orders"], none, ["orders"], [], none⟩
              ["orders.*"]).walk_ast (⟨[], []⟩, none)
          = (⟨["orders.*"] ++ (⟨["orders"], none, ["orders"], [], none⟩ : Slot).walkFrags,
              (⟨["orders"], none, ["orders"], [], none⟩ : Slot).walkBinds⟩, none)) :=
  ⟨rfl, rfl,
   simple_defaults_render_select_from ⟨["orders"], none, ["orders"], [], none⟩
     ["orders.*"] rfl rfl⟩

/-- C9: both renderings are deterministic, pure functions of the composite:
starting from any buffer (or pass context), a render appends exactly the
text (and binds) it would produce from the clean state and returns the same
result — so rendering the same composite twice yields identical SQL text
and identical parameter sequences, and the composite itself (a plain value
no render mutates) is left unchanged. -/
theorem render_deterministic_append_only (s : SelectStatement)
    (b : List String) (p : AstPass) :
    s.to_sql (b, none) = (b ++ (s.to_sql ([], none)).1, (s.to_sql ([], none)).2)
      ∧ s.walk_ast (p, none)
        = (⟨p.sql ++ (s.walk_ast (⟨[], []⟩, none)).1.sql,
            p.binds ++ (s.walk_ast (⟨[], []⟩, none)).1.binds⟩,
           (s.walk_ast (⟨[], []⟩, none)).2) := by
  constructor
  · simpa using to_sql_frame s b [] none
  · simpa using walk_ast_frame s p ⟨[], []⟩ none

/-- Counterexample to C4: a render that fails does not leave the output
buffer or pass context clean — `to_sql` leaves the `SELECT` keyword behind
after its `distinct` slot fails, and `walk_ast` leaves the fragments and
the bound parameter of the slots visited before its `select` slot fails. -/
theorem failed_render_leaves_partial_output :
    (failStmt.to_sql ([], none)).2 = some "boom"
      ∧ (failStmt.to_sql ([], none)).1 ≠ []
      ∧ (failStmt.walk_ast (⟨[], []⟩, none)).2 = some "boom"
      ∧ (failStmt.walk_ast (⟨[], []⟩, none)).1.sql ≠ []
      ∧ (failStmt.walk_ast (⟨[], []⟩, none)).1.binds ≠ [] := by
  decide

/-- C4 as amended: when a render call fails, the caller receives the error
through the returned result — but the output buffer / pass context is not
rolled back: it keeps its prior content, followed by whatever the render
appended before the failure (for `to_sql`, at least the `SELECT`
keyword). -/
theorem failed_render_retains_prior_content (s : SelectStatement)
    (b : List String) (p : AstPass) (e : Err) :
    ((s.to_sql (b, none)).2 = some e →
        ∃ t, (s.to_sql (b, none)).1 = b ++ ("SELECT " :: t))
      ∧ ((s.walk_ast (p, none)).2 = some e →
        ∃ ts tb, (s.walk_ast (p, none)).1 = ⟨p.sql ++ ts, p.binds ++ tb⟩) := by
  constructor
  · intro _
    obtain ⟨t, ht⟩ := to_sql_starts_with_select s
    have hf : s.to_sql (b, none)
        = (b ++ (s.to_sql ([], none)).1, (s.to_sql ([], none)).2) := by
      simpa using to_sql_frame s b [] none
    exact ⟨t, by rw [hf, ht]⟩
  · intro _
    have hw : s.walk_ast (p, none)
        = (⟨p.sql ++ (s.walk_ast (⟨[], []⟩, none)).1.sql,
            p.binds ++ (s.walk_ast (⟨[], []⟩, none)).1.binds⟩,
           (s.walk_ast (⟨[], []⟩, none)).2) := by
      simpa using walk_ast_frame s p ⟨[], []⟩ none
    exact ⟨_, _, congrArg Prod.fst hw⟩

/-- Witness for the amended C4: the failing concrete render reports its
error yet leaves `SELECT` (and the fragments rendered before the failure)
in the buffer. -/
theorem failed_render_retains_prior_content_witness :
    (failStmt.to_sql ([], none)).2 = some "boom"
      ∧ ∃ t, (failStmt.to_sql ([], none)).1 = [] ++ ("SELECT " :: t) :=
  ⟨by decide,
   (failed_render_retains_prior_content failStmt [] ⟨[], []⟩ "boom").1 (by decide)⟩

/-- C3: whichever slot fails first — in either pass — the render stops at
that slot: the output contains nothing from any later slot (and for
`to_sql`, the `" FROM "` literal is not even pushed when a slot before it
failed), and the failing slot's error value is returned unchanged. -/
theorem render_aborts_at_first_failing_slot (s : SelectStatement)
    (b : List String) (p : AstPass) (e : Err) :
    (s.distinct.sqlErr = some e →
        s.to_sql (b, none) = (b ++ ["SELECT "] ++ s.distinct.sqlFrags, some e))
      ∧ (s.distinct.sqlErr = none → s.select.sqlErr = some e →
        s.to_sql (b, none)
          = (b ++ ["SELECT "] ++ s.distinct.sqlFrags ++ s.select.sqlFrags, some e))
      ∧ (s.distinct.sqlErr = none → s.select.sqlErr = none →
          s.from_.sqlErr = some e →
        s.to_sql (b, none)
          = (b ++ ["SELECT "] ++ s.distinct.sqlFrags ++ s.select.sqlFrags
              ++ [" FROM "] ++ s.from_.sqlFrags, some e))
      ∧ (s.distinct.sqlErr = none → s.select.sqlErr = none →
          s.from_.sqlErr = none → s.where_clause.sqlErr = some e →
        s.to_sql (b, none)
          = (b ++ ["SELECT "] ++ s.distinct.sqlFrags ++ s.select.sqlFrags
              ++ [" FROM "] ++ s.from_.sqlFrags ++ s.where_clause.sqlFrags,
             some e))
      ∧ (s.distinct.sqlErr = none → s.select.sqlErr = none →
          s.from_.sqlErr = none → s.where_clause.sqlErr = none →
          s.group_by.sqlErr = some e →
        s.to_sql (b, none)
          = (b ++ ["SELECT "] ++ s.distinct.sqlFrags ++ s.select.sqlFrags
              ++ [" FROM "] ++ s.from_.sqlFrags ++ s.where_clause.sqlFrags
              ++ s.group_by.sqlFrags, some e))
      ∧ (s.distinct.sqlErr = none → s.select.sqlErr = none →
          s.from_.sqlErr = none → s.where_clause.sqlErr = none →
          s.group_by.sqlErr = none → s.order.sqlErr = some e →
        s.to_sql (b, none)
          = (b ++ ["SELECT "] ++ s.distinct.sqlFrags ++ s.select.sqlFrags
              ++ [" FROM "] ++ s.from_.sqlFrags ++ s.where_clause.sqlFrags
              ++ s.group_by.sqlFrags ++ s.order.sqlFrags, some e))
      ∧ (s.distinct.sqlErr = none → s.select.sqlErr = none →
          s.from_.sqlErr = none → s.where_clause.sqlErr = none →
          s.group_by.sqlErr = none → s.order.sqlErr = none →
          s.limit.sqlErr = some e →
        s.to_sql (b, none)
          = (b ++ ["SELECT "] ++ s.distinct.sqlFrags ++ s.select.sqlFrags
              ++ [" FROM "] ++ s.from_.sqlFrags ++ s.where_clause.sqlFrags
              ++ s.group_by.sqlFrags ++ s.order.sqlFrags ++ s.limit.sqlFrags,
             some e))
      ∧ (s.distinct.sqlErr = none → s.select.sqlErr = none →
          s.from_.sqlErr = none → s.where_clause.sqlErr = none →
          s.group_by.sqlErr = none → s.order.sqlErr = none →
          s.limit.sqlErr = none → s.offset.sqlErr = some e →
        s.to_sql (b, none)
          = (b ++ ["SELECT "] ++ s.distinct.sqlFrags ++ s.select.sqlFrags
              ++ [" FROM "] ++ s.from_.sqlFrags ++ s.where_clause.sqlFrags
              ++ s.group_by.sqlFrags ++ s.order.sqlFrags ++ s.limit.sqlFrags
              ++ s.offset.sqlFrags, some e))
      ∧ (s.distinct.walkErr = some e →
        s.walk_ast (p, none)
          = (⟨p.sql ++ s.distinct.walkFrags, p.binds ++ s.distinct.walkBinds⟩,
             some e))
      ∧ (s.distinct.walkErr = none → s.select.walkErr = some e →
        s.walk_ast (p, none)
          = (⟨p.sql ++ s.distinct.walkFrags ++ s.select.walkFrags,
              p.binds ++ s.distinct.walkBinds ++ s.select.walkBinds⟩, some e))
      ∧ (s.distinct.walkErr = none → s.select.walkErr = none →
          s.from_.walkErr = some e →
        s.walk_ast (p, none)
          = (⟨p.sql ++ s.distinct.walkFrags ++ s.select.walkFrags
                ++ s.from_.walkFrags,
              p.binds ++ s.distinct.walkBinds ++ s.select.walkBinds
                ++ s.from_.walkBinds⟩, some e))
      ∧ (s.distinct.walkErr = none → s.select.walkErr = none →
          s.from_.walkErr = none → s.where_clause.walkErr = some e →
        s.walk_ast (p, none)
          = (⟨p.sql ++ s.distinct.walkFrags ++ s.select.walkFrags
                ++ s.from_.walkFrags ++ s.where_clause.walkFrags,
              p.binds ++ s.distinct.walkBinds ++ s.select.walkBinds
                ++ s.from_.walkBinds ++ s.where_clause.walkBinds⟩, some e))
      ∧ (s.distinct.walkErr = none → s.select.walkErr = none →
          s.from_.walkErr = none → s.where_clause.walkErr = none →
          s.group_by.walkErr = some e →
        s.walk_ast (p, none)
          = (⟨p.sql ++ s.distinct.walkFrags ++ s.select.walkFrags
                ++ s.from_.walkFrags ++ s.where_clause.walkFrags
                ++ s.group_by.walkFrags,
              p.binds ++ s.distinct.walkBinds ++ s.select.walkBinds
                ++ s.from_.walkBinds ++ s.where_clause.walkBinds
                ++ s.group_by.walkBinds⟩, some e))
      ∧ (s.distinct.walkErr = none → s.select.walkErr = none →
          s.from_.walkErr = none → s.where_clause.walkErr = none →
          s.group_by.walkErr = none → s.order.walkErr = some e →
        s.walk_ast (p, none)
          = (⟨p.sql ++ s.distinct.walkFrags ++ s.select.walkFrags
                ++ s.from_.walkFrags ++ s.where_clause.walkFrags
                ++ s.group_by.walkFrags ++ s.order.walkFrags,
              p.binds ++ s.distinct.walkBinds ++ s.select.walkBinds
                ++ s.from_.walkBinds ++ s.where_clause.walkBinds
                ++ s.group_by.walkBinds ++ s.order.walkBinds⟩, some e))
      ∧ (s.distinct.walkErr = none → s.select.walkErr = none →
          s.from_.walkErr = none → s.where_clause.walkErr = none →
          s.group_by.walkErr = none → s.order.walkErr = none →
          s.limit.walkErr = some e →
        s.walk_ast (p, none)
          = (⟨p.sql ++ s.distinct.walkFrags ++ s.select.walkFrags
                ++ s.from_.walkFrags ++ s.where_clause.walkFrags
                ++ s.group_by.walkFrags ++ s.order.walkFrags
                ++ s.limit.walkFrags,
              p.binds ++ s.distinct.walkBinds ++ s.select.walkBinds
                ++ s.from_.walkBinds ++ s.where_clause.walkBinds
                ++ s.group_by.walkBinds ++ s.order.walkBinds
                ++ s.limit.walkBinds⟩, some e))
      ∧ (s.distinct.walkErr = none → s.select.walkErr = none →
          s.from_.walkErr = none → s.where_clause.walkErr = none →
          s.group_by.walkErr = none → s.order.walkErr = none →
          s.limit.walkErr = none → s.offset.walkErr = some e →
        s.walk_ast (p, none)
          = (⟨p.sql ++ s.distinct.walkFrags ++ s.select.walkFrags
                ++ s.from_.walkFrags ++ s.where_clause.walkFrags
                ++ s.group_by.walkFrags ++ s.order.walkFrags
                ++ s.limit.walkFrags ++ s.offset.walkFrags,
              p.binds ++ s.distinct.walkBinds ++ s.select.walkBinds
                ++ s.from_.walkBinds ++ s.where_clause.walkBinds
                ++ s.group_by.walkBinds ++ s.order.walkBinds
                ++ s.limit.walkBinds ++ s.offset.walkBinds⟩, some e)) := by
  refine ⟨?_, ?_, ?_, ?_, ?_, ?_, ?_, ?_, ?_, ?_, ?_, ?_, ?_, ?_, ?_, ?_⟩
  · intro h1
    simp [SelectStatement.to_sql, pushSql, runSlot, h1]
  · intro h1 h2
    simp [SelectStatement.to_sql, pushSql, runSlot, h1, h2]
  · intro h1 h2 h3
    simp [SelectStatement.to_sql, pushSql, runSlot, h1, h2, h3]
  · intro h1 h2 h3 h4
    simp [SelectStatement.to_sql, pushSql, runSlot, h1, h2, h3, h4]
  · intro h1 h2 h3 h4 h5
    simp [SelectStatement.to_sql, pushSql, runSlot, h1, h2, h3, h4, h5]
  · intro h1 h2 h3 h4 h5 h6
    simp [SelectStatement.to_sql, pushSql, runSlot, h1, h2, h3, h4, h5, h6]
  · intro h1 h2 h3 h4 h5 h6 h7
    simp [SelectStatement.to_sql, pushSql, runSlot, h1, h2, h3, h4, h5, h6, h7]
  · intro h1 h2 h3 h4 h5 h6 h7 h8
    simp [SelectStatement.to_sql, pushSql, runSlot, h1, h2, h3, h4, h5, h6, h7, h8]
  · intro h1
    simp [SelectStatement.walk_ast, walkSlot, h1]
  · intro h1 h2
    simp [SelectStatement.walk_ast, walkSlot, h1, h2]
  · intro h1 h2 h3
    simp [SelectStatement.walk_ast, walkSlot, h1, h2, h3]
  · intro h1 h2 h3 h4
    simp [SelectStatement.walk_ast, walkSlot, h1, h2, h3, h4]
  · intro h1 h2 h3 h4 h5
    simp [SelectStatement.walk_ast, walkSlot, h1, h2, h3, h4, h5]
  · intro h1 h2 h3 h4 h5 h6
    simp [SelectStatement.walk_ast, walkSlot, h1, h2, h3, h4, h5, h6]
  · intro h1 h2 h3 h4 h5 h6 h7
    simp [SelectStatement.walk_ast, walkSlot, h1, h2, h3, h4, h5, h6, h7]
  · intro h1 h2 h3 h4 h5 h6 h7 h8
    simp [SelectStatement.walk_ast, walkSlot, h1, h2, h3, h4, h5, h6, h7, h8]

/-- Witness for C3: the concrete failing composite stops at its failing
`distinct` slot in the text pass and at its failing `select` slot in the
walk pass, propagating the error value unchanged. -/
theorem render_aborts_at_first_failing_slot_witness :
    (failStmt.distinct.sqlErr = some "boom"
        ∧ failStmt.to_sql ([], none)
          = ([] ++ ["SELECT "] ++ failStmt.distinct.sqlFrags, some "boom"))
      ∧ (failStmt.distinct.walkErr = none ∧ failStmt.select.walkErr = some "boom"
        ∧ failStmt.walk_ast (⟨[], []⟩, none)
          = (⟨AstPass.sql ⟨[], []⟩ ++ failStmt.distinct.walkFrags ++ failStmt.select.walkFrags,
              AstPass.binds ⟨[], []⟩ ++ failStmt.distinct.walkBinds ++ failStmt.select.walkBinds⟩,
             some "boom")) :=
  ⟨⟨by decide,
    (render_aborts_at_first_failing_slot failStmt [] ⟨[], []⟩ "boom").1 (by decide)⟩,
   ⟨by decide, by decide,
    (render_aborts_at_first_failing_slot failStmt [] ⟨[], []⟩ "boom").2.2.2.2.2.2.2.2.2.1
      (by decide) (by decide)⟩⟩
